import Mathlib

/-!
Verification development for a session-scoped chat relay (`application.py`).

The source program is a Flask application with four pieces of logic:
  - `load_conversation_history` / `save_conversation_history`: a DynamoDB-backed
    history store whose records hold the turn sequence as a JSON string;
  - `get_ai_response`: builds the upstream Gemini payload from the stored turns,
    performs a single bounded network call, and defensively extracts the reply;
  - `chat`: the POST /chat handler gluing the above together.

The development embeds these functions shallowly: external collaborators
(DynamoDB, the network, the JSON codec of the standard library) are modelled
explicitly, machine effects become explicit state and outcome parameters.
-/

/-- A conversation turn as stored by the application: a record with a `role`
field (the source only ever writes "user" or "model") and a `text` field. -/
structure Turn where
  role : String
  text : String
deriving DecidableEq, Repr

/-- Embeds lines 161-163 of `application.py` (the two `history.append` calls in
the `/chat` handler): the history followed by the user turn and the model turn. -/
def appendTurns (history : List Turn) (prompt reply : String) : List Turn :=
  history ++ [⟨"user", prompt⟩, ⟨"model", reply⟩]

/-! ## JSON codec for the stored payload

`save_conversation_history` stores `json.dumps(history)` and
`load_conversation_history` applies `json.loads` to the stored string.  The two
standard-library functions are modelled here on the fragment this application
exchanges with its store: arrays of role/text string records.  `json.dumps`
default formatting is reproduced exactly: separators are a comma plus space and
a colon plus space, insertion order of the two keys is role before text, and
strings are escaped with the two-character escapes for quote, backslash,
newline, carriage return, tab, backspace and form feed, and a four-hex-digit
escape for the remaining control characters.  Non-ASCII characters are kept
verbatim rather than escaped as in default `ensure_ascii` mode; this does not
change any parse result.  The parser accepts the documents the serializer
produces and rejects malformed text, as `json.loads` does by raising
`JSONDecodeError`; JSON documents outside the record schema are outside the
modelled fragment.  Surrogate-pair escapes are not combined. -/

/-- Lower-case hexadecimal digit for a value below 16. -/
def hexDigit (n : Nat) : Char :=
  if n < 10 then Char.ofNat (48 + n) else Char.ofNat (87 + n)

/-- Value of a hexadecimal digit character. -/
def hexVal (c : Char) : Option Nat :=
  if '0' ≤ c ∧ c ≤ '9' then some (c.toNat - 48)
  else if 'a' ≤ c ∧ c ≤ 'f' then some (c.toNat - 87)
  else if 'A' ≤ c ∧ c ≤ 'F' then some (c.toNat - 55)
  else none

/-- JSON escape of one character, following `json.dumps`. -/
def escapeChar (c : Char) : List Char :=
  if c = '"' then ['\\', '"']
  else if c = '\\' then ['\\', '\\']
  else if c = '\n' then ['\\', 'n']
  else if c = '\r' then ['\\', 'r']
  else if c = '\t' then ['\\', 't']
  else if c = '\x08' then ['\\', 'b']
  else if c = '\x0c' then ['\\', 'f']
  else if c.toNat < 32 then
    ['\\', 'u', '0', '0', hexDigit (c.toNat / 16), hexDigit (c.toNat % 16)]
  else [c]

/-- JSON escape of a character sequence. -/
def escapeList : List Char → List Char
  | [] => []
  | c :: cs => escapeChar c ++ escapeList cs

/-- A JSON string literal: escaped content between double quotes. -/
def quoteString (s : String) : List Char :=
  '"' :: (escapeList s.data ++ ['"'])

/-- Inverse of the two-character escapes accepted by a JSON parser. -/
def unescapeShort (c : Char) : Option Char :=
  if c = '"' then some '"'
  else if c = '\\' then some '\\'
  else if c = '/' then some '/'
  else if c = 'n' then some '\n'
  else if c = 'r' then some '\r'
  else if c = 't' then some '\t'
  else if c = 'b' then some '\x08'
  else if c = 'f' then some '\x0c'
  else none

/-- Parses the body of a JSON string literal (the opening quote already
consumed) up to and including the closing quote; returns the decoded
characters and the unconsumed remainder. -/
def parseStringBody : List Char → Option (List Char × List Char)
  | [] => none
  | c :: cs =>
    if c = '"' then some ([], cs)
    else if c = '\\' then
      match cs with
      | [] => none
      | e :: cs2 =>
        if e = 'u' then
          match cs2 with
          | h1 :: h2 :: h3 :: h4 :: cs3 =>
            match hexVal h1, hexVal h2, hexVal h3, hexVal h4 with
            | some v1, some v2, some v3, some v4 =>
              match parseStringBody cs3 with
              | some (s, r) =>
                some (Char.ofNat (4096 * v1 + 256 * v2 + 16 * v3 + v4) :: s, r)
              | none => none
            | _, _, _, _ => none
          | _ => none
        else
          match unescapeShort e with
          | some d =>
            match parseStringBody cs2 with
            | some (s, r) => some (d :: s, r)
            | none => none
          | none => none
    else
      match parseStringBody cs with
      | some (s, r) => some (c :: s, r)
      | none => none

/-- Parses a JSON string literal including its opening quote. -/
def parseJString (cs : List Char) : Option (String × List Char) :=
  match cs with
  | [] => none
  | c :: cs2 =>
    if c = '"' then
      match parseStringBody cs2 with
      | some (l, r) => some (⟨l⟩, r)
      | none => none
    else none

/-- Consumes an expected literal character sequence. -/
def dropLit : List Char → List Char → Option (List Char)
  | [], cs => some cs
  | _ :: _, [] => none
  | l :: ls, c :: cs => if c = l then dropLit ls cs else none

/-- The opening of a serialized turn record, up to the role value. -/
def roleLit : List Char := "\x7b\"role\": ".data

/-- The separator between the role value and the text value. -/
def textLit : List Char := ", \"text\": ".data

/-- Serialization of one turn record, as `json.dumps` renders the
dictionaries built by the `/chat` handler. -/
def dumpsTurn (t : Turn) : List Char :=
  roleLit ++ (quoteString t.role ++ (textLit ++ (quoteString t.text ++ ['\x7d'])))

/-- Serialization of the second and later turns, each preceded by the
comma-space separator of `json.dumps`. -/
def dumpsTail : List Turn → List Char
  | [] => []
  | t :: ts => ',' :: ' ' :: (dumpsTurn t ++ dumpsTail ts)

/-- Serialization of a whole history as a JSON array. -/
def dumpsHistoryChars : List Turn → List Char
  | [] => ['[', ']']
  | t :: ts => '[' :: (dumpsTurn t ++ (dumpsTail ts ++ [']']))

/-- Model of `json.dumps(history)` as used at line 71 of `application.py`. -/
def json_dumps_history (h : List Turn) : String :=
  ⟨dumpsHistoryChars h⟩

/-- Parses one serialized turn record. -/
def parseTurn (cs : List Char) : Option (Turn × List Char) :=
  match dropLit roleLit cs with
  | none => none
  | some cs1 =>
    match parseJString cs1 with
    | none => none
    | some (role, cs2) =>
      match dropLit textLit cs2 with
      | none => none
      | some cs3 =>
        match parseJString cs3 with
        | none => none
        | some (text, cs4) =>
          match cs4 with
          | [] => none
          | c :: cs5 => if c = '\x7d' then some (⟨role, text⟩, cs5) else none

/-- Parses the turns after the first one: either the closing bracket or a
comma-space separator followed by a record.  The fuel argument bounds the
number of records; the caller passes the input length, which suffices because
every record consumes at least one character. -/
def parseMoreTurnsFuel : Nat → List Char → Option (List Turn × List Char)
  | _, [] => none
  | fuel, c :: rest =>
    if c = ']' then some ([], rest)
    else if c = ',' then
      match fuel, rest with
      | fuel2 + 1, c2 :: rest2 =>
        if c2 = ' ' then
          match parseTurn rest2 with
          | some (t, r2) =>
            match parseMoreTurnsFuel fuel2 r2 with
            | some (ts, r3) => some (t :: ts, r3)
            | none => none
          | none => none
        else none
      | _, _ => none
    else none

/-- Parses the content of the array after the opening bracket, requiring the
document to end at the closing bracket. -/
def parseHistoryTail (rest : List Char) : Option (List Turn) :=
  match rest with
  | [] => none
  | c :: rest2 =>
    if c = ']' then (if rest2.isEmpty then some [] else none)
    else
      match parseTurn (c :: rest2) with
      | some (t, r2) =>
        match parseMoreTurnsFuel r2.length r2 with
        | some (ts, r3) => if r3.isEmpty then some (t :: ts) else none
        | none => none
      | none => none

/-- Parses a serialized history document. -/
def parseHistoryChars (cs : List Char) : Option (List Turn) :=
  match cs with
  | [] => none
  | c :: rest => if c = '[' then parseHistoryTail rest else none

/-- Model of `json.loads` as applied at line 51 of `application.py` to the
stored `ConversationData` string. -/
def json_loads_history (s : String) : Option (List Turn) :=
  parseHistoryChars s.data

/-! ## The history store

`load_conversation_history` and `save_conversation_history` (lines 41-75) talk
to a DynamoDB table through a process-wide handle that may be absent when
initialization failed.  The store itself is modelled as a key-value map from
session identifiers to records; a `ClientError` from the collaborator is an
explicit outcome.  `load` catches only `ClientError`: a `json.loads` failure on
the stored payload is not caught and propagates, which the embedding renders as
an `Except.error` result. -/

/-- A record of the conversation table: the write timestamp and the serialized
turn sequence (the `SessionID` key is the map key). -/
structure StoredRecord where
  timestamp : Nat
  conversationData : String
deriving DecidableEq, Repr

/-- The state of the DynamoDB table: a partial map over session identifiers. -/
abbrev StoreState := String → Option StoredRecord

/-- Outcome of the `get_item` call inside `load_conversation_history`:
a `ClientError`, a response without an `Item`, or an `Item` in which the
`ConversationData` attribute may or may not be present. -/
inductive GetItemResult where
  | clientError
  | missing
  | found (conversationData : Option String)
deriving DecidableEq, Repr

/-- The `get_item` outcome produced by a store state: a `ClientError` when the
collaborator fails, otherwise the record under the key if any. -/
def storeGetResult (getFails : Bool) (st : StoreState) (sessionId : String) :
    GetItemResult :=
  if getFails then .clientError
  else
    match st sessionId with
    | some r => .found (some r.conversationData)
    | none => .missing

/-- Embeds `load_conversation_history` (lines 41-56).  Returns `[]` when the
table handle is absent, on `ClientError`, or when the item or its
`ConversationData` attribute is missing; parses the payload otherwise.  A
payload on which parsing fails raises `json.JSONDecodeError`, which the
`except ClientError` clause does not catch: the error propagates. -/
def load_conversation_history (tableAvailable : Bool) (res : GetItemResult) :
    Except Unit (List Turn) :=
  if tableAvailable then
    match res with
    | .clientError => .ok []
    | .missing => .ok []
    | .found none => .ok []
    | .found (some payload) =>
      match json_loads_history payload with
      | some h => .ok h
      | none => .error ()
  else .ok []

/-- Embeds `save_conversation_history` (lines 59-75).  Writes the record with
the current timestamp and the serialized history; does nothing when the table
handle is absent, and a `ClientError` from `put_item` is caught and logged, so
the store is unchanged in both failure cases. -/
def save_conversation_history (tableAvailable : Bool) (putFails : Bool)
    (now : Nat) (st : StoreState) (sessionId : String) (history : List Turn) :
    StoreState :=
  if tableAvailable then
    if putFails then st
    else fun k =>
      if k = sessionId then some ⟨now, json_dumps_history history⟩ else st k
  else st

/-! ## Untyped JSON values for the upstream response

The body returned by the generation service is navigated dynamically
(lines 113-123), with Python truthiness tests and attribute/index accesses
that can raise on values of unexpected type.  An untyped JSON value type makes
both behaviors expressible.  Numbers are modelled as integers; floating-point
bodies are outside the modelled fragment. -/

/-- An untyped JSON value. -/
inductive Json where
  | null
  | bool (b : Bool)
  | num (n : Int)
  | str (s : String)
  | arr (elems : List Json)
  | obj (fields : List (String × Json))

/-- Python truthiness of a JSON value: `None`, `False`, zero, and empty
strings, lists and dictionaries are falsy. -/
def truthy : Json → Bool
  | .null => false
  | .bool b => b
  | .num n => n != 0
  | .str s => !s.isEmpty
  | .arr xs => !xs.isEmpty
  | .obj kvs => !kvs.isEmpty

/-- Python `value.get(key)`: on a dictionary returns the entry or `None`;
on any other value raises `AttributeError`. -/
def pyGet (j : Json) (k : String) : Except Unit Json :=
  match j with
  | .obj kvs => .ok ((kvs.lookup k).getD Json.null)
  | _ => .error ()

/-- Python `value[0]`: the first element of a list, the first character of a
string; raises `IndexError` on empty sequences and `TypeError` elsewhere. -/
def pyIndex0 (j : Json) : Except Unit Json :=
  match j with
  | .arr (x :: _) => .ok x
  | .str s =>
    match s.data with
    | c :: _ => .ok (.str ⟨[c]⟩)
    | [] => .error ()
  | _ => .error ()

/-- Embeds the defensive navigation at lines 113-123 of `get_ai_response`:
the chained truthiness condition over `candidates`, `content`, `parts` and
`text`, short-circuiting to `none` (the unusual-format branch) when a link is
falsy, propagating an exception when an access raises, and producing the text
value when every link is truthy. -/
def extract_reply (result : Json) : Except Unit (Option Json) :=
  match pyGet result "candidates" with
  | .error e => .error e
  | .ok cands =>
    if truthy cands then
      match pyIndex0 cands with
      | .error e => .error e
      | .ok c0 =>
        match pyGet c0 "content" with
        | .error e => .error e
        | .ok content =>
          if truthy content then
            match pyGet content "parts" with
            | .error e => .error e
            | .ok parts =>
              if truthy parts then
                match pyIndex0 parts with
                | .error e => .error e
                | .ok p0 =>
                  match pyGet p0 "text" with
                  | .error e => .error e
                  | .ok textv =>
                    if truthy textv then .ok (some textv) else .ok none
              else .ok none
          else .ok none
    else .ok none

/-! ## The upstream request and `get_ai_response`

Lines 80-130 build the Gemini payload from the stored turns, perform a single
`requests.post` with `timeout=20`, and extract the reply defensively.  The
network is an explicit outcome parameter; the function also reports the
outbound calls it performs, so that single-attempt and timeout facts are
statable. -/

/-- One element of a `parts` array of the upstream schema. -/
structure ApiPart where
  text : String
deriving DecidableEq, Repr

/-- One element of the `contents` array of the upstream schema: a role plus
its text parts. -/
structure ApiContent where
  role : String
  parts : List ApiPart
deriving DecidableEq, Repr

/-- The request body sent to the generation endpoint: the mapped turn
sequence, the fixed system instruction and the tool list (`tools` holds one
entry enabling Google-search grounding for live information). -/
structure GeminiPayload where
  contents : List ApiContent
  systemInstruction : List ApiPart
  tools : List String
deriving DecidableEq, Repr

/-- The fixed persona of line 95. -/
def system_prompt : String :=
  "You are a concise, helpful, and friendly chatbot running on an AWS EC2 instance. You must remember the user\x27s name and previous questions."

/-- The mapping loop of lines 86-89: each stored turn appended in order to the
API history in the upstream message schema. -/
def api_history_of (history : List Turn) : List ApiContent :=
  history.foldl (fun acc turn => acc ++ [⟨turn.role, [⟨turn.text⟩]⟩]) []

/-- The payload of lines 92-101: the mapped history, the new user turn, the
system instruction and the grounding tool. -/
def build_payload (user_prompt : String) (history : List Turn) : GeminiPayload :=
  ⟨api_history_of history ++ [⟨"user", [⟨user_prompt⟩]⟩],
   [⟨system_prompt⟩],
   ["google_search"]⟩

/-- An outbound call to the generation endpoint: its body and its timeout in
seconds (the endpoint URL and API-key query parameter are fixed by module
configuration and carry no payload information). -/
structure OutboundCall where
  payload : GeminiPayload
  timeout : Nat
deriving DecidableEq, Repr

/-- Outcome of the `requests.post` call: a `RequestException` (connection
failure, timeout, or an HTTP error status surfaced by `raise_for_status`;
a body that fails JSON decoding also raises a `RequestException` subclass in
current `requests`), or a decoded response body. -/
inductive UpstreamOutcome where
  | requestError
  | ok (body : Json)

/-- Python falsiness of an optional string: absent or empty. -/
def strFalsy : Option String → Bool
  | none => true
  | some s => s.isEmpty

/-- Fuel-indexed JSON serialization of an untyped value, used only to render
the corner case in which the upstream text field holds a truthy non-string
value: the source returns that raw value, whose observable form downstream is
its JSON rendering. -/
def renderJsonFuel : Nat → Json → String
  | _, Json.null => "null"
  | _, Json.bool b => if b then "true" else "false"
  | _, Json.num n => toString n
  | _, Json.str s => String.mk (quoteString s)
  | fuel + 1, Json.arr xs =>
    "[" ++ String.intercalate ", " (xs.map (renderJsonFuel fuel)) ++ "]"
  | fuel + 1, Json.obj kvs =>
    "\x7b" ++ String.intercalate ", "
      (kvs.map (fun kv => String.mk (quoteString kv.1) ++ ": " ++ renderJsonFuel fuel kv.2)) ++ "\x7d"
  | 0, Json.arr _ => ""
  | 0, Json.obj _ => ""

mutual

/-- Structural size of an untyped JSON value, used as rendering fuel. -/
def jsonSize : Json → Nat
  | .null => 1
  | .bool _ => 1
  | .num _ => 1
  | .str _ => 1
  | .arr xs => jsonListSize xs + 1
  | .obj kvs => jsonFieldsSize kvs + 1

/-- Structural size of a JSON array body. -/
def jsonListSize : List Json → Nat
  | [] => 0
  | j :: js => jsonSize j + jsonListSize js + 1

/-- Structural size of a JSON object body. -/
def jsonFieldsSize : List (String × Json) → Nat
  | [] => 0
  | kv :: kvs => jsonSize kv.2 + jsonFieldsSize kvs + 1

end

/-- JSON rendering of an untyped value. -/
def renderJson (j : Json) : String :=
  renderJsonFuel (jsonSize j) j

/-- Embeds `get_ai_response` (lines 80-130).  Returns the reply text together
with the list of outbound calls performed.  A falsy API key short-circuits to
the configuration error message with no call; otherwise exactly one call with
timeout 20 is made, and the reply is the extracted text, the unusual-format
fallback when the truthiness chain fails, the unreadable-format fallback when
navigation raises (the generic handler at line 128), or the network-error
message on a `RequestException` (line 125). -/
def get_ai_response (apiKey : Option String) (user_prompt : String)
    (history : List Turn) (outcome : UpstreamOutcome) :
    String × List OutboundCall :=
  if strFalsy apiKey then
    ("ERROR: AI Key not configured. Check Elastic Beanstalk environment variables.", [])
  else
    let call : OutboundCall := ⟨build_payload user_prompt history, 20⟩
    let reply :=
      match outcome with
      | .requestError =>
        "Sorry, the AI service failed to respond due to a network error on the EC2 instance."
      | .ok result =>
        match extract_reply result with
        | .ok (some (.str s)) => s
        | .ok (some j) => renderJson j
        | .ok none => "Sorry, I received an unusual response from the AI model."
        | .error _ => "Sorry, I received an unreadable response from the AI model."
    (reply, [call])

/-! ## The `/chat` handler

Lines 145-169.  The handler validates the prompt and the session identifier,
loads the history, calls the generation step, appends the turn pair, saves,
and answers.  The embedding returns the HTTP-visible outcome together with the
resulting store state and the keys read and written, so that the
no-read-no-write property of the validation failure path is statable. -/

/-- The collaborator environment of one request: the configured API key, the
availability and failure modes of the store, the upstream outcome, and the
current time stamped on writes. -/
structure Env where
  apiKey : Option String
  tableAvailable : Bool
  getFails : Bool
  putFails : Bool
  upstream : UpstreamOutcome
  now : Nat

/-- The HTTP-visible outcome of a `/chat` request: a success body carrying the
reply, the client-error body carrying an error message, or an unhandled
exception (Flask answers it with a server error). -/
inductive ChatOutcome where
  | reply (text : String)
  | badRequest (msg : String)
  | crash

/-- The HTTP status of an outcome. -/
def statusOf : ChatOutcome → Nat
  | .reply _ => 200
  | .badRequest _ => 400
  | .crash => 500

/-- Everything observable about one `/chat` request: its outcome, the store
state afterwards, and the keys on which a store read or write was attempted. -/
structure ChatResult where
  outcome : ChatOutcome
  store : StoreState
  readKeys : List String
  writeKeys : List String

/-- Embeds the `chat` handler (lines 145-169).  The prompt comes from the
request body and the session identifier from the cookie session; either being
absent or empty is the validation failure, answered with status 400 before any
store access.  Otherwise: one load, the generation step, the append of the
turn pair, one save, and the success body. -/
def chat (prompt : Option String) (sessionId : Option String) (env : Env)
    (st : StoreState) : ChatResult :=
  if strFalsy prompt || strFalsy sessionId then
    ⟨.badRequest "Missing prompt or session ID", st, [], []⟩
  else
    let p := prompt.getD ""
    let sid := sessionId.getD ""
    let reads := if env.tableAvailable then [sid] else []
    match load_conversation_history env.tableAvailable
        (storeGetResult env.getFails st sid) with
    | .error _ => ⟨.crash, st, reads, []⟩
    | .ok history =>
      let reply := (get_ai_response env.apiKey p history env.upstream).1
      let history2 := appendTurns history p reply
      let st2 := save_conversation_history env.tableAvailable env.putFails
        env.now st sid history2
      let writes := if env.tableAvailable then [sid] else []
      ⟨.reply reply, st2, reads, writes⟩

/-! ## Round-trip of the stored payload

The chain of lemmas below proves that parsing inverts serialization:
`json.loads` applied to `json.dumps(history)` recovers the history. -/

theorem hexVal_hexDigit (n : Nat) (h : n < 16) : hexVal (hexDigit n) = some n := by
  interval_cases n <;> decide

theorem parseStringBody_escape (c : Char) (rest : List Char) :
    parseStringBody (escapeChar c ++ rest)
      = (parseStringBody rest).map (fun pr => (c :: pr.1, pr.2)) := by
  unfold escapeChar
  by_cases h1 : c = '"'
  · subst h1
    rw [if_pos rfl]
    rw [List.cons_append, List.cons_append, List.nil_append, parseStringBody.eq_def]
    simp [unescapeShort]
    cases parseStringBody rest <;> simp
  · rw [if_neg h1]
    by_cases h2 : c = '\\'
    · subst h2
      rw [if_pos rfl]
      rw [List.cons_append, List.cons_append, List.nil_append, parseStringBody.eq_def]
      simp [unescapeShort]
      cases parseStringBody rest <;> simp
    · rw [if_neg h2]
      by_cases h3 : c = '\n'
      · subst h3
        rw [if_pos rfl]
        rw [List.cons_append, List.cons_append, List.nil_append, parseStringBody.eq_def]
        simp [unescapeShort]
        cases parseStringBody rest <;> simp
      · rw [if_neg h3]
        by_cases h4 : c = '\r'
        · subst h4
          rw [if_pos rfl]
          rw [List.cons_append, List.cons_append, List.nil_append, parseStringBody.eq_def]
          simp [unescapeShort]
          cases parseStringBody rest <;> simp
        · rw [if_neg h4]
          by_cases h5 : c = '\t'
          · subst h5
            rw [if_pos rfl]
            rw [List.cons_append, List.cons_append, List.nil_append, parseStringBody.eq_def]
            simp [unescapeShort]
            cases parseStringBody rest <;> simp
          · rw [if_neg h5]
            by_cases h6 : c = '\x08'
            · subst h6
              rw [if_pos rfl]
              rw [List.cons_append, List.cons_append, List.nil_append, parseStringBody.eq_def]
              simp [unescapeShort]
              cases parseStringBody rest <;> simp
            · rw [if_neg h6]
              by_cases h7 : c = '\x0c'
              · subst h7
                rw [if_pos rfl]
                rw [List.cons_append, List.cons_append, List.nil_append, parseStringBody.eq_def]
                simp [unescapeShort]
                cases parseStringBody rest <;> simp
              · rw [if_neg h7]
                by_cases h8 : c.toNat < 32
                · rw [if_pos h8]
                  have hd1 : hexVal (hexDigit (c.toNat / 16)) = some (c.toNat / 16) :=
                    hexVal_hexDigit _ (by omega)
                  have hd2 : hexVal (hexDigit (c.toNat % 16)) = some (c.toNat % 16) :=
                    hexVal_hexDigit _ (Nat.mod_lt _ (by omega))
                  rw [List.cons_append, List.cons_append, List.cons_append,
                    List.cons_append, List.cons_append, List.cons_append,
                    List.nil_append, parseStringBody.eq_def]
                  simp only [reduceIte, hd1, hd2]
                  have hv : (4096 * (hexVal '0').getD 0 + 256 * (hexVal '0').getD 0
                      + 16 * (c.toNat / 16) + c.toNat % 16) = c.toNat := by
                    simp [hexVal]
                    omega
                  simp [hexVal]
                  have : 16 * (c.toNat / 16) + c.toNat % 16 = c.toNat := by omega
                  rw [this, Char.ofNat_toNat]
                  cases parseStringBody rest <;> simp
                · rw [if_neg h8]
                  rw [List.cons_append, List.nil_append, parseStringBody.eq_def]
                  simp only [if_neg h1, if_neg h2]
                  cases parseStringBody rest <;> simp

theorem parseStringBody_escapeList (l rest : List Char) :
    parseStringBody (escapeList l ++ ('"' :: rest)) = some (l, rest) := by
  induction l with
  | nil =>
    rw [escapeList, List.nil_append, parseStringBody.eq_def]
    simp
  | cons c cs ih =>
    rw [escapeList, List.append_assoc, parseStringBody_escape, ih]
    rfl

theorem parseJString_quote (s : String) (rest : List Char) :
    parseJString (quoteString s ++ rest) = some (s, rest) := by
  rw [quoteString, List.cons_append, List.append_assoc, List.singleton_append]
  simp only [parseJString, reduceIte, parseStringBody_escapeList]

theorem dropLit_append (lit rest : List Char) :
    dropLit lit (lit ++ rest) = some rest := by
  induction lit with
  | nil => rfl
  | cons l ls ih => simp [dropLit, ih]

theorem parseTurn_dumps (t : Turn) (rest : List Char) :
    parseTurn (dumpsTurn t ++ rest) = some (t, rest) := by
  rw [dumpsTurn]
  simp only [List.append_assoc, List.singleton_append]
  simp only [parseTurn, dropLit_append, parseJString_quote, reduceIte]

theorem parseMoreTurnsFuel_dumps (ts : List Turn) :
    ∀ fuel rest, ts.length ≤ fuel →
      parseMoreTurnsFuel fuel (dumpsTail ts ++ (']' :: rest)) = some (ts, rest) := by
  induction ts with
  | nil =>
    intro fuel rest h
    cases fuel <;>
      · rw [dumpsTail, List.nil_append, parseMoreTurnsFuel.eq_def]
        simp
  | cons t ts ih =>
    intro fuel rest h
    cases fuel with
    | zero => simp at h
    | succ fuel2 =>
      rw [dumpsTail]
      simp only [List.cons_append, List.append_assoc]
      rw [parseMoreTurnsFuel.eq_def]
      simp only [reduceIte, Char.reduceEq]
      simp only [parseTurn_dumps, ih fuel2 rest (by simpa using h)]

theorem dumpsTail_length (ts : List Turn) : ts.length ≤ (dumpsTail ts).length := by
  induction ts with
  | nil => simp [dumpsTail]
  | cons t ts ih =>
    simp only [dumpsTail, List.length_cons, List.length_append]
    omega

theorem parseHistoryTail_dumps (t : Turn) (ts : List Turn) :
    parseHistoryTail (dumpsTurn t ++ (dumpsTail ts ++ [']'])) = some (t :: ts) := by
  have hY : dumpsTurn t ++ (dumpsTail ts ++ [']'])
      = '\x7b' :: ("\"role\": ".data
          ++ (quoteString t.role ++ (textLit ++ (quoteString t.text ++ ['\x7d'])))
          ++ (dumpsTail ts ++ [']'])) := by
    rw [dumpsTurn, show roleLit = '\x7b' :: "\"role\": ".data from rfl]
    simp [List.append_assoc]
  rw [hY, parseHistoryTail]
  rw [if_neg (by decide)]
  rw [← hY]
  simp only [parseTurn_dumps]
  have hfuel : ts.length ≤ (dumpsTail ts ++ [']']).length := by
    have := dumpsTail_length ts
    simp only [List.length_append, List.length_cons, List.length_nil]
    omega
  simp only [parseMoreTurnsFuel_dumps ts _ [] hfuel]
  simp

theorem parse_dumps (h : List Turn) :
    parseHistoryChars (dumpsHistoryChars h) = some h := by
  cases h with
  | nil => rfl
  | cons t ts =>
    rw [dumpsHistoryChars, parseHistoryChars]
    rw [if_pos rfl]
    exact parseHistoryTail_dumps t ts

theorem loads_dumps (h : List Turn) :
    json_loads_history (json_dumps_history h) = some h := by
  exact parse_dumps h

theorem api_history_of_eq_map (hist : List Turn) :
    api_history_of hist = hist.map (fun t => ⟨t.role, [⟨t.text⟩]⟩) := by
  have gen : ∀ (l : List Turn) (acc : List ApiContent),
      l.foldl (fun acc turn => acc ++ [⟨turn.role, [⟨turn.text⟩]⟩]) acc
        = acc ++ l.map (fun t => ⟨t.role, [⟨t.text⟩]⟩) := by
    intro l
    induction l with
    | nil => intro acc; simp
    | cons t ts ih => intro acc; simp [ih]
  simpa [api_history_of] using gen hist []

/-- C5 counterexample: two upstream bodies that both deviate from the expected
candidate/content/parts/text shape produce two different fixed strings —
an empty object takes the falsy-navigation branch, while a bare number makes
the attribute access raise into the generic handler — so there is no single
fixed fallback string for all shape mismatches. -/
theorem extract_two_distinct_fallbacks :
    (get_ai_response (some "k") "hi" [] (.ok (Json.obj []))).1
      = "Sorry, I received an unusual response from the AI model." ∧
    (get_ai_response (some "k") "hi" [] (.ok (Json.num 5))).1
      = "Sorry, I received an unreadable response from the AI model." ∧
    ("Sorry, I received an unusual response from the AI model." : String)
      ≠ "Sorry, I received an unreadable response from the AI model." :=
  ⟨rfl, rfl, by decide⟩

/-- C5 amended: reply extraction on a shape deviation never raises out of
`get_ai_response`; it returns one of two fixed fallback strings — the
unusual-response string when the truthiness navigation fails on a missing or
falsy field, and the unreadable-response string when the navigation raises on
a value of unexpected type. -/
theorem extract_deviation_fallbacks (key p : String) (hist : List Turn)
    (j : Json) (hk : key.isEmpty = false) :
    (extract_reply j = .ok none →
      (get_ai_response (some key) p hist (.ok j)).1
        = "Sorry, I received an unusual response from the AI model.") ∧
    (extract_reply j = .error () →
      (get_ai_response (some key) p hist (.ok j)).1
        = "Sorry, I received an unreadable response from the AI model.") := by
  constructor <;> intro h <;> simp [get_ai_response, strFalsy, hk, h]

/-- Witness for the amended C5 at a concrete deviant body. -/
theorem extract_deviation_fallbacks_witness :
    (get_ai_response (some "k") "ping" [] (.ok (Json.arr []))).1
      = "Sorry, I received an unreadable response from the AI model." :=
  (extract_deviation_fallbacks "k" "ping" [] (Json.arr []) rfl).2 rfl

/-- C7: the upstream payload consists of each stored turn mapped to the
upstream message schema in order, followed by the new user turn carrying the
prompt, plus the fixed system instruction and the Google-search grounding
tool enabling live-information augmentation. -/
theorem build_payload_spec (p : String) (hist : List Turn) :
    (build_payload p hist).contents
      = hist.map (fun t => ⟨t.role, [⟨t.text⟩]⟩) ++ [⟨"user", [⟨p⟩]⟩] ∧
    (build_payload p hist).systemInstruction = [⟨system_prompt⟩] ∧
    (build_payload p hist).tools = ["google_search"] := by
  refine ⟨?_, rfl, rfl⟩
  show api_history_of hist ++ _ = _
  rw [api_history_of_eq_map]

/-- C8: with a configured key the generation step performs exactly one
outbound call, and that call carries timeout 20; on a network or timeout
failure the reply is the fixed network-error message, and the /chat request
still completes with status 200 carrying that message rather than an HTTP
error. -/
theorem upstream_single_bounded_call (key p : String) (hist : List Turn)
    (hk : key.isEmpty = false) :
    (∀ outcome, (get_ai_response (some key) p hist outcome).2
      = [⟨build_payload p hist, 20⟩]) ∧
    (get_ai_response (some key) p hist .requestError).1
      = "Sorry, the AI service failed to respond due to a network error on the EC2 instance." ∧
    (∀ (sid : String) (st : StoreState) (env : Env) (hist0 : List Turn),
      env.apiKey = some key → env.upstream = .requestError →
      p.isEmpty = false → sid.isEmpty = false →
      load_conversation_history env.tableAvailable
        (storeGetResult env.getFails st sid) = .ok hist0 →
      (chat (some p) (some sid) env st).outcome
        = .reply "Sorry, the AI service failed to respond due to a network error on the EC2 instance." ∧
      statusOf (chat (some p) (some sid) env st).outcome = 200) := by
  refine ⟨?_, ?_, ?_⟩
  · intro outcome
    simp [get_ai_response, strFalsy, hk]
  · simp [get_ai_response, strFalsy, hk]
  · intro sid st env hist0 hkey hup hp hs hload
    have houtcome : (chat (some p) (some sid) env st).outcome
        = .reply "Sorry, the AI service failed to respond due to a network error on the EC2 instance." := by
      simp [chat, strFalsy, hp, hs, hload, hkey, hup, get_ai_response, hk]
    exact ⟨houtcome, by rw [houtcome]; rfl⟩

/-- Witness for C8: concrete single bounded call and completed request on a
network failure. -/
theorem upstream_single_bounded_call_witness :
    (get_ai_response (some "k") "hi" [] .requestError).2
      = [⟨build_payload "hi" [], 20⟩] ∧
    (chat (some "hi") (some "s")
        ⟨some "k", true, false, false, .requestError, 0⟩ (fun _ => none)).outcome
      = .reply "Sorry, the AI service failed to respond due to a network error on the EC2 instance." :=
  ⟨(upstream_single_bounded_call "k" "hi" [] rfl).1 .requestError,
   ((upstream_single_bounded_call "k" "hi" [] rfl).2.2 "s" (fun _ => none)
      ⟨some "k", true, false, false, .requestError, 0⟩ [] rfl rfl rfl rfl rfl).1⟩

/-- C9: on every validated /chat request whose load and save succeed, the
text the generation step returns — whatever it is, fallback and error strings
included — is appended to the history as the model turn and persisted: the
stored record holds the serialized appended history, and loading the session
again returns it. -/
theorem reply_appended_and_persisted (p sid : String) (env : Env)
    (st : StoreState) (hist0 : List Turn)
    (hp : p.isEmpty = false) (hs : sid.isEmpty = false)
    (hload : load_conversation_history env.tableAvailable
      (storeGetResult env.getFails st sid) = .ok hist0)
    (havail : env.tableAvailable = true) (hput : env.putFails = false) :
    (chat (some p) (some sid) env st).outcome
      = .reply (get_ai_response env.apiKey p hist0 env.upstream).1 ∧
    (chat (some p) (some sid) env st).store sid
      = some ⟨env.now, json_dumps_history
          (appendTurns hist0 p (get_ai_response env.apiKey p hist0 env.upstream).1)⟩ ∧
    load_conversation_history true
      (storeGetResult false ((chat (some p) (some sid) env st).store) sid)
      = .ok (appendTurns hist0 p
          (get_ai_response env.apiKey p hist0 env.upstream).1) := by
  have hload2 : load_conversation_history true
      (storeGetResult env.getFails st sid) = .ok hist0 := havail ▸ hload
  have hstore : (chat (some p) (some sid) env st).store sid
      = some ⟨env.now, json_dumps_history
          (appendTurns hist0 p (get_ai_response env.apiKey p hist0 env.upstream).1)⟩ := by
    simp [chat, strFalsy, hp, hs, havail, hput, hload2, save_conversation_history]
  refine ⟨?_, hstore, ?_⟩
  · simp [chat, strFalsy, hp, hs, hload]
  · simp [storeGetResult, hstore, load_conversation_history, loads_dumps]

/-- Witness for C9: a network-failure reply (an error text) is persisted as
the model turn of the stored conversation. -/
theorem reply_appended_and_persisted_witness :
    (chat (some "hi") (some "s")
        ⟨some "k", true, false, false, .requestError, 3⟩ (fun _ => none)).store "s"
      = some ⟨3, json_dumps_history
          (appendTurns [] "hi"
            (get_ai_response (some "k") "hi" [] .requestError).1)⟩ :=
  (reply_appended_and_persisted "hi" "s"
    ⟨some "k", true, false, false, .requestError, 3⟩ (fun _ => none) []
    rfl rfl rfl rfl rfl).2.1

/-- C10: an upstream body that is well-shaped along the whole
candidate/content/parts/text path but whose text value is falsy — the empty
string in particular — yields the unusual-response fallback rather than the
empty reply, because every link is tested for truthiness, not presence. -/
theorem falsy_text_fallback (result cands c0 content parts p0 textv : Json)
    (key prompt : String) (hist : List Turn)
    (hk : key.isEmpty = false)
    (h1 : pyGet result "candidates" = .ok cands) (h2 : truthy cands = true)
    (h3 : pyIndex0 cands = .ok c0)
    (h4 : pyGet c0 "content" = .ok content) (h5 : truthy content = true)
    (h6 : pyGet content "parts" = .ok parts) (h7 : truthy parts = true)
    (h8 : pyIndex0 parts = .ok p0)
    (h9 : pyGet p0 "text" = .ok textv) (h10 : truthy textv = false) :
    (get_ai_response (some key) prompt hist (.ok result)).1
      = "Sorry, I received an unusual response from the AI model." := by
  simp [get_ai_response, strFalsy, hk, extract_reply,
    h1, h2, h3, h4, h5, h6, h7, h8, h9, h10]

/-- Witness for C10: a fully well-shaped body whose text is the empty
string. -/
theorem falsy_text_fallback_witness :
    (get_ai_response (some "k") "hi" []
        (.ok (Json.obj [("candidates", Json.arr [Json.obj [("content",
          Json.obj [("parts", Json.arr [Json.obj [("text",
          Json.str "")]])])]])]))).1
      = "Sorry, I received an unusual response from the AI model." :=
  falsy_text_fallback
    (Json.obj [("candidates", Json.arr [Json.obj [("content",
      Json.obj [("parts", Json.arr [Json.obj [("text", Json.str "")]])])]])])
    (Json.arr [Json.obj [("content",
      Json.obj [("parts", Json.arr [Json.obj [("text", Json.str "")]])])]])
    (Json.obj [("content",
      Json.obj [("parts", Json.arr [Json.obj [("text", Json.str "")]])])])
    (Json.obj [("parts", Json.arr [Json.obj [("text", Json.str "")]])])
    (Json.arr [Json.obj [("text", Json.str "")]])
    (Json.obj [("text", Json.str "")])
    (Json.str "")
    "k" "hi" [] rfl rfl rfl rfl rfl rfl rfl rfl rfl rfl rfl

/-- C1: appending the new turn pair as the /chat handler does after the
generation call yields a sequence two longer than the history, preserving the
history as its initial segment in order, and ending with the user turn
carrying the prompt followed by the model turn carrying the reply. -/
theorem appendTurns_spec (h : List Turn) (p r : String) :
    (appendTurns h p r).length = h.length + 2 ∧
    (appendTurns h p r).take h.length = h ∧
    (appendTurns h p r).drop h.length = [⟨"user", p⟩, ⟨"model", r⟩] := by
  refine ⟨?_, ?_, ?_⟩ <;> simp [appendTurns]

/-- C2: saving a non-empty history under a session identifier and then loading
that identifier from the resulting store (no concurrent writer in between)
returns the same history: the stored record round-trips through
serialization and parsing. -/
theorem save_load_roundtrip (st : StoreState) (sid : String) (now : Nat)
    (h : List Turn) (hne : h ≠ []) :
    load_conversation_history true
      (storeGetResult false
        (save_conversation_history true false now st sid h) sid)
      = .ok h := by
  simp [save_conversation_history, storeGetResult, load_conversation_history,
    loads_dumps]

/-- Witness for C2 at a concrete non-empty history. -/
theorem save_load_roundtrip_witness :
    ([⟨"user", "hi"⟩] : List Turn) ≠ [] ∧
    load_conversation_history true
      (storeGetResult false
        (save_conversation_history true false 7 (fun _ => none) "s"
          [⟨"user", "hi"⟩]) "s")
      = .ok [⟨"user", "hi"⟩] :=
  ⟨by decide, save_load_roundtrip (fun _ => none) "s" 7 [⟨"user", "hi"⟩] (by decide)⟩

/-- C3 counterexample: a stored payload that fails to parse as JSON makes
`load_conversation_history` raise (the `except` clause catches only
`ClientError`), rather than return the empty sequence the claim promises. -/
theorem load_malformed_payload_raises :
    load_conversation_history true (.found (some "not json")) = .error () ∧
    load_conversation_history true (.found (some "not json")) ≠ .ok [] :=
  ⟨rfl, fun h => Except.noConfusion h⟩

/-- C3 amended: a store read failure, an unavailable table, or a missing
record or attribute is absorbed into the empty sequence, but a stored payload
on which JSON parsing fails propagates the parse failure to the caller. -/
theorem load_failure_modes :
    (∀ res, load_conversation_history false res = .ok []) ∧
    load_conversation_history true .clientError = .ok [] ∧
    load_conversation_history true .missing = .ok [] ∧
    load_conversation_history true (.found none) = .ok [] ∧
    ∀ s, json_loads_history s = none →
      load_conversation_history true (.found (some s)) = .error () := by
  refine ⟨fun res => rfl, rfl, rfl, rfl, fun s hs => ?_⟩
  simp [load_conversation_history, hs]

/-- Witness for the amended C3 at a concrete malformed payload. -/
theorem load_failure_modes_witness :
    load_conversation_history true (.found (some "x")) = .error () :=
  load_failure_modes.2.2.2.2 "x" rfl

/-- C4: a /chat request with a missing or empty prompt, or without a session
identifier, is answered with the client-error body and status 400, and the
request performs no store read and no store write: the store is returned
unchanged. -/
theorem chat_missing_fields (prompt sessionId : Option String) (env : Env)
    (st : StoreState)
    (h : strFalsy prompt = true ∨ strFalsy sessionId = true) :
    chat prompt sessionId env st
      = ⟨.badRequest "Missing prompt or session ID", st, [], []⟩ ∧
    statusOf (chat prompt sessionId env st).outcome = 400 := by
  have hcond : (strFalsy prompt || strFalsy sessionId) = true := by
    rcases h with h | h <;> simp [h]
  refine ⟨?_, ?_⟩ <;> simp [chat, hcond, statusOf]

/-- Witness for C4: the empty request body scenario. -/
theorem chat_missing_fields_witness :
    chat none (some "s") ⟨some "k", true, false, false, .requestError, 0⟩
        (fun _ => none)
      = ⟨.badRequest "Missing prompt or session ID", fun _ => none, [], []⟩ ∧
    statusOf (chat none (some "s")
        ⟨some "k", true, false, false, .requestError, 0⟩
        (fun _ => none)).outcome = 400 :=
  chat_missing_fields none (some "s") _ _ (Or.inl rfl)

/-- C6: loading a session identifier for which the store holds no record
returns the empty sequence, not an error. -/
theorem load_unknown_session (st : StoreState) (sid : String)
    (h : st sid = none) :
    load_conversation_history true (storeGetResult false st sid) = .ok [] := by
  simp [storeGetResult, load_conversation_history, h]

/-- Witness for C6 at a concrete empty store. -/
theorem load_unknown_session_witness :
    load_conversation_history true
      (storeGetResult false (fun _ => none) "session-1") = .ok [] :=
  load_unknown_session (fun _ => none) "session-1" rfl
